import Mathlib

/-!
Shallow embedding of the consensus-accounting core of the `ream` beacon
client (crates/rpc/src/handlers/block.rs, plus the `IndexedAttestation`
data type from crates/common/consensus/src/indexed_attestation.rs).

Machine integers (`u64`) are modelled as `Nat`; the overflow-freedom of
every reward accumulation under protocol bounds is itself one of the
verified properties, so plain `Nat` arithmetic agrees with the `u64`
computation on all inputs within those bounds.  256-bit roots (`B256`)
are modelled as `Nat` (they are only compared for equality and used as
map keys).

`BeaconState` methods (`get_total_active_balance`,
`get_base_reward_per_increment`, `get_proposer_reward`,
`get_attesting_indices`, `get_current_epoch`) live in the
`ream_consensus` crate, outside the sources under verification; they are
carried as abstract data / function fields of the state, so every
theorem holds for all implementations of them.
-/

namespace Ream

/-- Protocol constant `EFFECTIVE_BALANCE_INCREMENT` (1 ETH in Gwei).
Modelled from the spec: the constant is imported from
`ream_consensus::constants`, not part of the sources under verification;
the value is the protocol mainnet value. -/
def EFFECTIVE_BALANCE_INCREMENT : Nat := 1000000000

/-- Protocol constant `SYNC_REWARD_WEIGHT`.
Modelled from the spec: imported from `ream_consensus::constants`. -/
def SYNC_REWARD_WEIGHT : Nat := 2

/-- Protocol constant `WEIGHT_DENOMINATOR`.
Modelled from the spec: imported from `ream_consensus::constants`. -/
def WEIGHT_DENOMINATOR : Nat := 64

/-- Protocol constant `PROPOSER_WEIGHT`.
Modelled from the spec: imported from `ream_consensus::constants`. -/
def PROPOSER_WEIGHT : Nat := 8

/-- Protocol constant `SLOTS_PER_EPOCH`.
Modelled from the spec: imported from `ream_consensus::constants`. -/
def SLOTS_PER_EPOCH : Nat := 32

/-- Protocol constant `SYNC_COMMITTEE_SIZE`.
Modelled from the spec: imported from `ream_consensus::constants`. -/
def SYNC_COMMITTEE_SIZE : Nat := 512

/-- Protocol constant `WHISTLEBLOWER_REWARD_QUOTIENT`.
Modelled from the spec: imported from `ream_consensus::constants`. -/
def WHISTLEBLOWER_REWARD_QUOTIENT : Nat := 512

/-- A validator registry entry, with the fields the verified code reads. -/
structure Validator where
  effective_balance : Nat
  slashed : Bool
  activation_epoch : Nat
  withdrawable_epoch : Nat
deriving Repr, DecidableEq

/-- Modelled from the spec: `Validator::is_slashable_validator` (defined
in `ream_consensus`, outside the sources under verification): a
validator is slashable at `epoch` iff it is not already slashed and
`epoch` lies in `[activation_epoch, withdrawable_epoch)`. -/
def Validator.is_slashable_validator (v : Validator) (epoch : Nat) : Bool :=
  !v.slashed && (v.activation_epoch ≤ epoch && epoch < v.withdrawable_epoch)

/-- Value produced by an out-of-bounds `Vec` index in the Rust source
(which would panic there); the claims about registry lookups carry
in-bounds hypotheses, under which this default is never consulted. -/
def defaultValidator : Validator :=
  { effective_balance := 0, slashed := true, activation_epoch := 0, withdrawable_epoch := 0 }

/-- An attestation as it appears in a block body.  The verified code
never inspects its contents: it only hands it to the state's (external)
`get_attesting_indices`, so an opaque identifier suffices. -/
structure Attestation where
  id : Nat
deriving Repr, DecidableEq

/-- `IndexedAttestation` (crates/common/consensus/src/indexed_attestation.rs):
`attesting_indices` is a variable-length list of validator indices (the
`data` and `signature` fields are never read by the verified code). -/
structure IndexedAttestation where
  attesting_indices : List Nat
deriving Repr, DecidableEq

/-- `AttesterSlashing`: a pair of allegedly conflicting attestations. -/
structure AttesterSlashing where
  attestation_1 : IndexedAttestation
  attestation_2 : IndexedAttestation
deriving Repr, DecidableEq

/-- A proposer-slashing report; the verified code reads only
`signed_header_1.message.proposer_index`, carried here directly. -/
structure ProposerSlashing where
  proposer_index : Nat
deriving Repr, DecidableEq

/-- The sync aggregate: a participation bitfield, modelled as a list of
booleans; `num_set_bits` is the count of `true` entries. -/
structure SyncAggregate where
  sync_committee_bits : List Bool
deriving Repr, DecidableEq

/-- Number of set bits of a participation bitfield
(`BitVector::num_set_bits` in the Rust source). -/
def SyncAggregate.num_set_bits (a : SyncAggregate) : Nat :=
  a.sync_committee_bits.countP (fun b => b)

/-- The parts of a beacon-block body read by the reward calculator. -/
structure BeaconBlockBody where
  attestations : List Attestation
  proposer_slashings : List ProposerSlashing
  attester_slashings : List AttesterSlashing
  sync_aggregate : SyncAggregate

/-- A beacon block: proposer index and body. -/
structure BeaconBlock where
  proposer_index : Nat
  body : BeaconBlockBody

/-- A signed beacon block (the signature is never read). -/
structure SignedBeaconBlock where
  message : BeaconBlock

/-- The beacon state as consumed by the verified code.  `validators` and
the epoch are data; the remaining fields model the `ream_consensus`
state methods, which are outside the sources under verification, as
abstract values / functions:
`current_epoch` = `get_current_epoch()`,
`total_active_balance` = `get_total_active_balance()`,
`base_reward_per_increment` = `get_base_reward_per_increment()`,
`get_attesting_indices` (fallible committee resolution),
`get_proposer_reward`. -/
structure BeaconState where
  validators : List Validator
  current_epoch : Nat
  total_active_balance : Nat
  base_reward_per_increment : Nat
  get_attesting_indices : Attestation → Except Unit (List Nat)
  get_proposer_reward : Nat → Nat

/-- `get_attestations_rewards` (block.rs lines 106-117): for every
attestation whose attesting indices resolve, add the proposer reward of
each attesting index; a failed resolution contributes nothing and the
loop continues. -/
def get_attestations_rewards (s : BeaconState) (b : SignedBeaconBlock) : Nat :=
  b.message.body.attestations.foldl
    (fun acc attestation =>
      match s.get_attesting_indices attestation with
      | .ok attesting_indices =>
          attesting_indices.foldl (fun a index => a + s.get_proposer_reward index) acc
      | .error _ => acc)
    0

/-- `get_sync_committee_rewards` (block.rs lines 119-136), transcribed
let-for-let from the Rust source. -/
def get_sync_committee_rewards (s : BeaconState) (b : SignedBeaconBlock) : Nat :=
  let total_active_balance := s.total_active_balance
  let total_active_increments := total_active_balance / EFFECTIVE_BALANCE_INCREMENT
  let total_base_rewards := s.base_reward_per_increment * total_active_increments
  let max_participant_rewards :=
    total_base_rewards * SYNC_REWARD_WEIGHT / WEIGHT_DENOMINATOR / SLOTS_PER_EPOCH
  let participant_reward := max_participant_rewards / SYNC_COMMITTEE_SIZE
  let proposer_reward :=
    participant_reward * PROPOSER_WEIGHT / (WEIGHT_DENOMINATOR - PROPOSER_WEIGHT)
  b.message.body.sync_aggregate.num_set_bits * proposer_reward

/-- The ascending duplicate-free enumeration of a list's elements:
models `iter().cloned().collect::<BTreeSet<_>>()` followed by in-order
iteration (a `BTreeSet` iterates its distinct elements in ascending
order). -/
def toSortedSet (l : List Nat) : List Nat :=
  List.insertionSort (· ≤ ·) l.dedup

/-- `get_slashable_attester_indices` (block.rs lines 138-167): the
ascending iteration of the `BTreeSet` intersection of the two
attestations' indices, keeping the indices whose validator is slashable
at the current epoch. -/
def get_slashable_attester_indices (s : BeaconState) (slashing : AttesterSlashing) : List Nat :=
  let attestation_indices_1 := toSortedSet slashing.attestation_1.attesting_indices
  let attestation_indices_2 := toSortedSet slashing.attestation_2.attesting_indices
  (attestation_indices_1.filter (fun index => attestation_indices_2.contains index)).filter
    (fun index =>
      (s.validators.getD index defaultValidator).is_slashable_validator s.current_epoch)

/-- `get_proposer_slashing_rewards` (block.rs lines 169-181): sum of the
effective balances of the proposers named by the block's
proposer-slashing reports. -/
def get_proposer_slashing_rewards (s : BeaconState) (b : SignedBeaconBlock) : Nat :=
  b.message.body.proposer_slashings.foldl
    (fun acc ps => acc + (s.validators.getD ps.proposer_index defaultValidator).effective_balance)
    0

/-- `get_attester_slashing_rewards` (block.rs lines 183-198): for each
attester-slashing report, add `effective_balance /
WHISTLEBLOWER_REWARD_QUOTIENT` for every slashable index. -/
def get_attester_slashing_rewards (s : BeaconState) (b : SignedBeaconBlock) : Nat :=
  b.message.body.attester_slashings.foldl
    (fun acc slashing =>
      (get_slashable_attester_indices s slashing).foldl
        (fun a index =>
          a + (s.validators.getD index defaultValidator).effective_balance /
            WHISTLEBLOWER_REWARD_QUOTIENT)
        acc)
    0

/-- Block identifiers (`ream_beacon_api_types::id::ID`), as matched on
by the resolver in block.rs. -/
inductive ID where
  | Finalized
  | Justified
  | Head
  | Genesis
  | Slot (slot : Nat)
  | Root (root : Nat)
deriving Repr, DecidableEq

/-- Modelled from the spec: the error taxonomy of
`ream_beacon_api_types::error::ApiError` (outside the sources under
verification).  The spec's taxonomy lists `NotFound`, `NotSupported`
and `InternalError`; the source file under verification constructs only
`NotFound` and `InternalError`. -/
inductive ApiError where
  | NotFound (msg : String)
  | NotSupported (msg : String)
  | InternalError (msg : String)
deriving Repr, DecidableEq

/-- A checkpoint: (epoch, root). -/
structure Checkpoint where
  epoch : Nat
  root : Nat
deriving Repr, DecidableEq

/-- The store reads performed by the resolver, each of which can fail
(`Except String` models a failed database read carrying its error). -/
structure ReamDB where
  finalized_checkpoint : Except String Checkpoint
  justified_checkpoint : Except String Checkpoint
  slot_index : Nat → Except String (Option Nat)

/-- `get_block_root_from_id` (block.rs lines 55-89): resolves a block
identifier to a root.  Head and Genesis return early with a `NotFound`
error saying the ID type is not supported; Finalized/Justified read the
corresponding checkpoint (store failure becomes `InternalError`);
Slot(n) reads the slot index (store failure becomes `InternalError`, a
missing entry becomes `NotFound`); Root(r) yields `r`. -/
def get_block_root_from_id (block_id : ID) (db : ReamDB) : Except ApiError Nat := do
  let resolved : Option Nat ←
    match block_id with
    | .Finalized =>
        match db.finalized_checkpoint with
        | .ok checkpoint => pure (some checkpoint.root)
        | .error _ => throw (ApiError.InternalError "Failed to get block by block_root")
    | .Justified =>
        match db.justified_checkpoint with
        | .ok checkpoint => pure (some checkpoint.root)
        | .error _ => throw (ApiError.InternalError "Failed to get block by block_root")
    | .Head => throw (ApiError.NotFound "This ID type is currently not supported: Head")
    | .Genesis => throw (ApiError.NotFound "This ID type is currently not supported: Genesis")
    | .Slot slot =>
        match db.slot_index slot with
        | .ok value => pure value
        | .error _ => throw (ApiError.InternalError "Failed to get block by block_root")
    | .Root root => pure (some root)
  match resolved with
  | some root => pure root
  | none => throw (ApiError.NotFound "Failed to find block_root")

/-- An entry of the filtered block tree, as read by `get_beacon_heads`:
its parent root and its slot. -/
structure BlockTreeNode where
  parent_root : Nat
  slot : Nat
deriving Repr, DecidableEq

/-- A head response: root and slot (`execution_optimistic` is the
constant `false` in the source and is omitted). -/
structure BeaconHeadResponse where
  root : Nat
  slot : Nat
deriving Repr, DecidableEq

/-- The set of parent roots referenced by the filtered block mapping
(block.rs lines 315-319); list membership models `HashSet` membership. -/
def referencedParents (blocks : List (Nat × BlockTreeNode)) : List Nat :=
  blocks.map (fun entry => entry.2.parent_root)

/-- `get_beacon_heads`, head-selection part (block.rs lines 314-329): a
block of the filtered mapping is a head iff its root is not among the
referenced parent roots.  The mapping is modelled as an association list
of (root, node); the response root is the entry's key, which
`filter_block_tree` keys by the block's own tree-hash root. -/
def get_beacon_heads (blocks : List (Nat × BlockTreeNode)) : List BeaconHeadResponse :=
  (blocks.filter (fun entry => !(referencedParents blocks).contains entry.1)).map
    (fun entry => { root := entry.1, slot := entry.2.slot })

/-- Modelled from the spec: electra protocol maximum effective balance
(2048 ETH in Gwei); "balances lie within protocol bounds" caps each
validator's effective balance by this constant. -/
def MAX_EFFECTIVE_BALANCE_ELECTRA : Nat := 2048000000000

/-- Modelled from the spec: protocol maximum number of proposer-slashing
reports per block body. -/
def MAX_PROPOSER_SLASHINGS : Nat := 16

/-- Modelled from the spec: electra protocol maximum number of
attester-slashing reports per block body. -/
def MAX_ATTESTER_SLASHINGS_ELECTRA : Nat := 1

/-- Modelled from the spec: electra protocol maximum number of
attestations per block body. -/
def MAX_ATTESTATIONS_ELECTRA : Nat := 8

/-- Modelled from the spec: maximum number of attesting indices of one
(electra, committee-aggregated) attestation:
`MAX_VALIDATORS_PER_COMMITTEE * MAX_COMMITTEES_PER_SLOT = 2048 * 64`. -/
def MAX_ATTESTING_INDICES : Nat := 131072

/-- Modelled from the spec: an upper bound (`2 ^ 57` Gwei, about
1.4 * 10^8 ETH, beyond the total ETH supply) on the total active
balance of any state whose balances lie within protocol bounds. -/
def MAX_TOTAL_ACTIVE_BALANCE : Nat := 144115188075855872

/-- The number of values of `u64`: a computation whose `Nat` value is
below this bound is computed identically by the `u64` arithmetic of the
Rust source. -/
def U64_CARD : Nat := 18446744073709551616

/-- The amount one attestation adds to the attestation reward
accumulation: the sum of the proposer rewards of its attesting indices,
or zero when resolution fails. -/
def attContribution (s : BeaconState) (a : Attestation) : Nat :=
  match s.get_attesting_indices a with
  | .ok idxs => (idxs.map s.get_proposer_reward).sum
  | .error _ => 0

/-- The amount one attester-slashing report adds to the
attester-slashing reward accumulation. -/
def slashingContribution (s : BeaconState) (sl : AttesterSlashing) : Nat :=
  ((get_slashable_attester_indices s sl).map
    (fun i => (s.validators.getD i defaultValidator).effective_balance /
      WHISTLEBLOWER_REWARD_QUOTIENT)).sum

/-! ### Concrete fixtures used by witnesses and counterexamples -/

/-- A three-validator registry: validator 0 slashable at epoch 3,
validator 1 already slashed, validator 2 not yet activated at epoch 3. -/
def sampleValidators : List Validator :=
  [{ effective_balance := 32000000000, slashed := false,
     activation_epoch := 0, withdrawable_epoch := 100 },
   { effective_balance := 31000000000, slashed := true,
     activation_epoch := 0, withdrawable_epoch := 100 },
   { effective_balance := 32000000000, slashed := false,
     activation_epoch := 5, withdrawable_epoch := 100 }]

/-- A small concrete state: committee resolution fails exactly on the
attestation with id 0 and otherwise yields one in-range index. -/
def sampleState : BeaconState where
  validators := sampleValidators
  current_epoch := 3
  total_active_balance := 64000000000
  base_reward_per_increment := 500
  get_attesting_indices := fun a => if a.id = 0 then .error () else .ok [a.id % 3]
  get_proposer_reward := fun i => 10 * (i % 3)

/-- An attester slashing whose index lists are unsorted and contain a
duplicate; the intersection of their underlying sets is {0, 1, 2}. -/
def sampleSlashing : AttesterSlashing :=
  { attestation_1 := { attesting_indices := [2, 0, 1, 0] },
    attestation_2 := { attesting_indices := [1, 0, 2] } }

/-- A block containing attestation 0 (whose resolution fails) between
attestations 1 and 2. -/
def sampleAttBlock : SignedBeaconBlock :=
  ⟨⟨7, { attestations := [⟨1⟩, ⟨0⟩, ⟨2⟩], proposer_slashings := [],
         attester_slashings := [], sync_aggregate := ⟨[]⟩ }⟩⟩

/-- The same block with the failing attestation removed. -/
def sampleAttBlockDropped : SignedBeaconBlock :=
  ⟨⟨7, { attestations := [⟨1⟩, ⟨2⟩], proposer_slashings := [],
         attester_slashings := [], sync_aggregate := ⟨[]⟩ }⟩⟩

/-- A block whose sync-committee bitfield has one set bit. -/
def sampleSyncBlockOne : SignedBeaconBlock :=
  ⟨⟨0, { attestations := [], proposer_slashings := [],
         attester_slashings := [], sync_aggregate := ⟨[true, false]⟩ }⟩⟩

/-- A block whose sync-committee bitfield has two set bits. -/
def sampleSyncBlockTwo : SignedBeaconBlock :=
  ⟨⟨0, { attestations := [], proposer_slashings := [],
         attester_slashings := [], sync_aggregate := ⟨[true, true, false]⟩ }⟩⟩

/-- A store with no checkpoints and an empty slot index. -/
def dbEmpty : ReamDB where
  finalized_checkpoint := .error "missing"
  justified_checkpoint := .error "missing"
  slot_index := fun _ => .ok none

/-- The synthetic filtered block tree of the spec's head-definition
test: root 0 (parent 100) with children 1 and 2, child 1 having child 3;
the heads are the blocks with roots 2 and 3. -/
def sampleTree : List (Nat × BlockTreeNode) :=
  [(0, ⟨100, 0⟩), (1, ⟨0, 1⟩), (2, ⟨0, 1⟩), (3, ⟨1, 2⟩)]

/-- A one-validator state whose abstract reward functions respect the
protocol bounds. -/
def boundedState : BeaconState where
  validators := [{ effective_balance := 32000000000, slashed := false,
                   activation_epoch := 0, withdrawable_epoch := 100 }]
  current_epoch := 0
  total_active_balance := 32000000000
  base_reward_per_increment := 500
  get_attesting_indices := fun _ => .ok [0]
  get_proposer_reward := fun _ => 1000

/-- A block with one attestation, one proposer slashing, one attester
slashing and a full 512-bit sync bitfield, all within protocol maxima. -/
def boundedBlock : SignedBeaconBlock :=
  ⟨⟨0, { attestations := [⟨1⟩], proposer_slashings := [⟨0⟩],
         attester_slashings := [⟨⟨[0]⟩, ⟨[0]⟩⟩],
         sync_aggregate := ⟨List.replicate 512 true⟩ }⟩⟩

/-! ### Properties of the `BTreeSet` model -/

theorem mem_toSortedSet {x : Nat} {l : List Nat} : x ∈ toSortedSet l ↔ x ∈ l := by
  unfold toSortedSet
  rw [(List.perm_insertionSort (· ≤ ·) l.dedup).mem_iff, List.mem_dedup]

theorem toSortedSet_nodup (l : List Nat) : (toSortedSet l).Nodup :=
  (List.perm_insertionSort (· ≤ ·) l.dedup).nodup_iff.mpr l.nodup_dedup

theorem toSortedSet_sorted (l : List Nat) : (toSortedSet l).Sorted (· < ·) :=
  List.Sorted.lt_of_le (List.sorted_insertionSort (· ≤ ·) l.dedup) (toSortedSet_nodup l)

theorem toSortedSet_length_le (l : List Nat) : (toSortedSet l).length ≤ l.length :=
  le_trans (List.Perm.length_eq (List.perm_insertionSort (· ≤ ·) l.dedup)).le
    (List.Sublist.length_le l.dedup_sublist)

/-- Two strictly sorted lists with the same members are equal (the
ascending enumeration of a finite set of naturals is unique). -/
theorem sorted_lt_eq_of_mem_iff {l₁ l₂ : List Nat} (h₁ : l₁.Sorted (· < ·))
    (h₂ : l₂.Sorted (· < ·)) (h : ∀ x, x ∈ l₁ ↔ x ∈ l₂) : l₁ = l₂ :=
  List.eq_of_perm_of_sorted ((List.perm_ext_iff_of_nodup h₁.nodup h₂.nodup).mpr h) h₁ h₂

/-! ### Shape of the slashable-indices computation -/

/-- Membership in the slashable-indices output: exactly the indices in
both attestations' index lists whose validator entry is slashable at the
current epoch. -/
theorem mem_slashable_attester_indices (s : BeaconState) (sl : AttesterSlashing) (i : Nat) :
    i ∈ get_slashable_attester_indices s sl ↔
      i ∈ sl.attestation_1.attesting_indices ∧ i ∈ sl.attestation_2.attesting_indices ∧
        (s.validators.getD i defaultValidator).is_slashable_validator s.current_epoch = true := by
  simp only [get_slashable_attester_indices, List.mem_filter, List.elem_iff,
    mem_toSortedSet, decide_eq_true_eq, and_assoc]

/-- The slashable-indices output is strictly ascending. -/
theorem slashable_attester_indices_ascending (s : BeaconState) (sl : AttesterSlashing) :
    (get_slashable_attester_indices s sl).Sorted (· < ·) :=
  ((toSortedSet_sorted _).filter _).filter _

/-- The slashable-indices output has at most as many entries as the
first attestation's index list. -/
theorem slashable_attester_indices_length_le (s : BeaconState) (sl : AttesterSlashing) :
    (get_slashable_attester_indices s sl).length ≤
      sl.attestation_1.attesting_indices.length := by
  unfold get_slashable_attester_indices
  exact le_trans (List.Sublist.length_le
      ((List.filter_sublist _).trans (List.filter_sublist _)))
    (toSortedSet_length_le _)

/-! ### Accumulations as sums -/

theorem foldl_add_eq_sum {α : Type} (g : α → Nat) (l : List α) (init : Nat) :
    l.foldl (fun a x => a + g x) init = init + (l.map g).sum := by
  induction l generalizing init with
  | nil => simp
  | cons x xs ih => simp [ih, Nat.add_assoc]

theorem attestations_rewards_eq_sum (s : BeaconState) (b : SignedBeaconBlock) :
    get_attestations_rewards s b =
      (b.message.body.attestations.map (attContribution s)).sum := by
  unfold get_attestations_rewards
  suffices h : ∀ (l : List Attestation) (init : Nat),
      (l.foldl (fun acc attestation =>
        match s.get_attesting_indices attestation with
        | .ok attesting_indices =>
            attesting_indices.foldl (fun a index => a + s.get_proposer_reward index) acc
        | .error _ => acc) init) = init + (l.map (attContribution s)).sum by
    simpa using h b.message.body.attestations 0
  intro l
  induction l with
  | nil => simp
  | cons a as ih =>
      intro init
      simp only [List.foldl_cons, List.map_cons, List.sum_cons]
      rw [ih]
      cases hres : s.get_attesting_indices a with
      | ok idxs => simp [hres, attContribution, foldl_add_eq_sum, Nat.add_assoc]
      | error e => simp [hres, attContribution, Nat.add_assoc]

theorem attester_slashing_rewards_eq_sum (s : BeaconState) (b : SignedBeaconBlock) :
    get_attester_slashing_rewards s b =
      (b.message.body.attester_slashings.map (slashingContribution s)).sum := by
  unfold get_attester_slashing_rewards
  suffices h : ∀ (l : List AttesterSlashing) (init : Nat),
      (l.foldl (fun acc slashing =>
        (get_slashable_attester_indices s slashing).foldl
          (fun a index =>
            a + (s.validators.getD index defaultValidator).effective_balance /
              WHISTLEBLOWER_REWARD_QUOTIENT) acc) init) =
        init + (l.map (slashingContribution s)).sum by
    simpa using h b.message.body.attester_slashings 0
  intro l
  induction l with
  | nil => simp
  | cons sl sls ih =>
      intro init
      simp only [List.foldl_cons, List.map_cons, List.sum_cons]
      rw [ih]
      simp [slashingContribution, foldl_add_eq_sum, Nat.add_assoc]

theorem proposer_slashing_rewards_eq_sum (s : BeaconState) (b : SignedBeaconBlock) :
    get_proposer_slashing_rewards s b =
      (b.message.body.proposer_slashings.map
        (fun ps => (s.validators.getD ps.proposer_index defaultValidator).effective_balance)).sum := by
  unfold get_proposer_slashing_rewards
  simpa using foldl_add_eq_sum
    (fun ps => (s.validators.getD ps.proposer_index defaultValidator).effective_balance)
    b.message.body.proposer_slashings 0

theorem sum_map_le_length_mul {α : Type} (l : List α) (g : α → Nat) (B : Nat)
    (h : ∀ x ∈ l, g x ≤ B) : (l.map g).sum ≤ l.length * B := by
  induction l with
  | nil => simp
  | cons x xs ih =>
      simp only [List.map_cons, List.sum_cons, List.length_cons]
      calc g x + (xs.map g).sum ≤ B + xs.length * B :=
            Nat.add_le_add (h x (List.mem_cons_self x xs))
              (ih fun y hy => h y (List.mem_cons_of_mem x hy))
        _ = (xs.length + 1) * B := by ring

/-- A registry read (total via `getD`) never exceeds the maximum
effective balance when every registry entry respects it. -/
theorem effective_balance_getD_le (s : BeaconState)
    (hval : ∀ v ∈ s.validators, v.effective_balance ≤ MAX_EFFECTIVE_BALANCE_ELECTRA) (i : Nat) :
    (s.validators.getD i defaultValidator).effective_balance ≤ MAX_EFFECTIVE_BALANCE_ELECTRA := by
  by_cases h : i < s.validators.length
  · rw [List.getD_eq_getElem _ _ h]
    exact hval _ (List.getElem_mem h)
  · rw [List.getD_eq_default _ _ (Nat.le_of_not_lt h)]
    exact Nat.zero_le _

/-! ### The claims -/

/-- Claim C1: for every state and block, the sync-committee reward
component equals `participant_reward = (total_active_balance /
EFFECTIVE_BALANCE_INCREMENT) * base_reward_per_increment *
SYNC_REWARD_WEIGHT / WEIGHT_DENOMINATOR / SLOTS_PER_EPOCH /
SYNC_COMMITTEE_SIZE`, then `proposer_share = participant_reward *
PROPOSER_WEIGHT / (WEIGHT_DENOMINATOR - PROPOSER_WEIGHT)`, then
`proposer_share` times the number of set bits of the block's
sync-committee participation bitfield, with every division truncating
and performed in exactly this order. -/
theorem sync_committee_reward_matches_spec_formula (s : BeaconState) (b : SignedBeaconBlock) :
    get_sync_committee_rewards s b =
      s.total_active_balance / EFFECTIVE_BALANCE_INCREMENT * s.base_reward_per_increment *
          SYNC_REWARD_WEIGHT / WEIGHT_DENOMINATOR / SLOTS_PER_EPOCH / SYNC_COMMITTEE_SIZE *
          PROPOSER_WEIGHT / (WEIGHT_DENOMINATOR - PROPOSER_WEIGHT) *
        b.message.body.sync_aggregate.num_set_bits := by
  simp only [get_sync_committee_rewards]
  rw [Nat.mul_comm s.base_reward_per_increment
    (s.total_active_balance / EFFECTIVE_BALANCE_INCREMENT)]
  exact Nat.mul_comm _ _

/-- Claim C2: for every state and attester slashing (whose shared
indices are in range of the registry), the slashable-indices operation
returns exactly the intersection of the two attestations'
attesting-index sets restricted to indices whose validator is slashable
at the state's current epoch, in ascending index order. -/
theorem slashable_attester_indices_correct (s : BeaconState) (sl : AttesterSlashing)
    (hbound : ∀ i ∈ sl.attestation_1.attesting_indices, i < s.validators.length) :
    (∀ i, i ∈ get_slashable_attester_indices s sl ↔
        i ∈ sl.attestation_1.attesting_indices ∧
          i ∈ sl.attestation_2.attesting_indices ∧
          (s.validators.getD i defaultValidator).is_slashable_validator s.current_epoch
            = true) ∧
      (get_slashable_attester_indices s sl).Sorted (· < ·) :=
  ⟨fun i => mem_slashable_attester_indices s sl i, slashable_attester_indices_ascending s sl⟩

/-- Witness for C2 on the concrete sample state and slashing: the
hypothesis holds and the characterization follows. -/
theorem slashable_attester_indices_correct_witness :
    (∀ i ∈ sampleSlashing.attestation_1.attesting_indices,
        i < sampleState.validators.length) ∧
      ((∀ i, i ∈ get_slashable_attester_indices sampleState sampleSlashing ↔
          i ∈ sampleSlashing.attestation_1.attesting_indices ∧
            i ∈ sampleSlashing.attestation_2.attesting_indices ∧
            (sampleState.validators.getD i defaultValidator).is_slashable_validator
              sampleState.current_epoch = true) ∧
        (get_slashable_attester_indices sampleState sampleSlashing).Sorted (· < ·)) :=
  ⟨by decide, slashable_attester_indices_correct sampleState sampleSlashing (by decide)⟩

/-- Claim C3: for every filtered block mapping, a block is returned as a
head iff its root never appears as the parent root of any block of the
mapping; on the synthetic tree (root 0 with children 1 and 2, child 1
having child 3) the heads are exactly the blocks with roots 2 and 3. -/
theorem beacon_heads_iff_unreferenced (blocks : List (Nat × BlockTreeNode))
    (entry : Nat × BlockTreeNode) (hmem : entry ∈ blocks) :
    ((⟨entry.1, entry.2.slot⟩ : BeaconHeadResponse) ∈ get_beacon_heads blocks ↔
        ∀ q ∈ blocks, q.2.parent_root ≠ entry.1) ∧
      get_beacon_heads sampleTree = [⟨2, 1⟩, ⟨3, 2⟩] := by
  constructor
  · simp only [get_beacon_heads, List.mem_map, List.mem_filter, Bool.not_eq_true',
      ← Bool.not_eq_true, List.elem_iff, referencedParents, List.mem_map,
      BeaconHeadResponse.mk.injEq]
    constructor
    · rintro ⟨q, ⟨hq, hnc⟩, hroot, -⟩
      intro p hp hcontra
      exact hnc ⟨p, hp, hroot ▸ hcontra⟩
    · intro h
      refine ⟨entry, ⟨hmem, ?_⟩, rfl, rfl⟩
      rintro ⟨a, ha, hae⟩
      exact h a ha hae
  · decide

/-- Witness for C3: block 2 of the synthetic tree, whose root no block
references as parent, is a head. -/
theorem beacon_heads_iff_unreferenced_witness :
    ((2, (⟨0, 1⟩ : BlockTreeNode)) ∈ sampleTree) ∧
      (((⟨2, 1⟩ : BeaconHeadResponse) ∈ get_beacon_heads sampleTree ↔
          ∀ q ∈ sampleTree, q.2.parent_root ≠ 2) ∧
        get_beacon_heads sampleTree = [⟨2, 1⟩, ⟨3, 2⟩]) :=
  ⟨by decide, beacon_heads_iff_unreferenced sampleTree (2, ⟨0, 1⟩) (by decide)⟩

/-- Claim C4 counterexample: resolving the Head identifier fails with a
`NotFound` error (carrying a "not supported" message), not with the
`NotSupported` error variant the claim names. -/
theorem head_resolution_yields_notfound_counterexample :
    get_block_root_from_id ID.Head dbEmpty =
      Except.error (ApiError.NotFound "This ID type is currently not supported: Head") :=
  rfl

/-- Claim C4 as amended: for every store, resolving a Head or Genesis
identifier always fails, with a `NotFound` error whose message states
the ID type is not supported; it never succeeds and never yields
`NotSupported` or `InternalError`. -/
theorem head_genesis_rejected_with_notfound (db : ReamDB) :
    get_block_root_from_id ID.Head db =
        Except.error (ApiError.NotFound "This ID type is currently not supported: Head") ∧
      get_block_root_from_id ID.Genesis db =
        Except.error (ApiError.NotFound "This ID type is currently not supported: Genesis") :=
  ⟨rfl, rfl⟩

/-- Claim C5: an attestation whose attesting-index resolution fails
contributes exactly zero to the attestation reward component; the
remaining attestations are still accumulated (removing the failing
attestation leaves the component unchanged). -/
theorem failed_attestation_resolution_contributes_zero (s : BeaconState)
    (b b' : SignedBeaconBlock) (a : Attestation) (l1 l2 : List Attestation)
    (ha : s.get_attesting_indices a = .error ())
    (hb : b.message.body.attestations = l1 ++ a :: l2)
    (hb' : b'.message.body.attestations = l1 ++ l2) :
    get_attestations_rewards s b = get_attestations_rewards s b' := by
  simp only [get_attestations_rewards, hb, hb', List.foldl_append, List.foldl_cons, ha]

/-- Witness for C5: dropping the failing attestation 0 from the sample
block leaves the attestation reward unchanged. -/
theorem failed_attestation_resolution_contributes_zero_witness :
    sampleState.get_attesting_indices ⟨0⟩ = .error () ∧
      sampleAttBlock.message.body.attestations = [⟨1⟩] ++ ⟨0⟩ :: [⟨2⟩] ∧
      sampleAttBlockDropped.message.body.attestations = [⟨1⟩] ++ [⟨2⟩] ∧
      get_attestations_rewards sampleState sampleAttBlock =
        get_attestations_rewards sampleState sampleAttBlockDropped :=
  ⟨rfl, rfl, rfl,
    failed_attestation_resolution_contributes_zero sampleState sampleAttBlock
      sampleAttBlockDropped ⟨0⟩ [⟨1⟩] [⟨2⟩] rfl rfl rfl⟩

/-- Claim C7: resolving `Root r` returns `r` unchanged, and resolving
`Slot n` when the store records no root at slot `n` fails with
`NotFound`. -/
theorem root_roundtrip_and_missing_slot_notfound (db : ReamDB) (r n : Nat)
    (h : db.slot_index n = .ok none) :
    get_block_root_from_id (ID.Root r) db = Except.ok r ∧
      ∃ msg, get_block_root_from_id (ID.Slot n) db = Except.error (ApiError.NotFound msg) := by
  refine ⟨rfl, "Failed to find block_root", ?_⟩
  simp only [get_block_root_from_id, h]
  rfl

/-- Witness for C7 on the empty store. -/
theorem root_roundtrip_and_missing_slot_notfound_witness :
    dbEmpty.slot_index 3 = .ok none ∧
      (get_block_root_from_id (ID.Root 42) dbEmpty = Except.ok 42 ∧
        ∃ msg, get_block_root_from_id (ID.Slot 3) dbEmpty =
          Except.error (ApiError.NotFound msg)) :=
  ⟨rfl, root_roundtrip_and_missing_slot_notfound dbEmpty 42 3 rfl⟩

/-- Claim C8: the slashable-indices computation is symmetric in the two
attestations of the slashing. -/
theorem slashable_attester_indices_symmetric (s : BeaconState) (a1 a2 : IndexedAttestation) :
    get_slashable_attester_indices s ⟨a1, a2⟩ = get_slashable_attester_indices s ⟨a2, a1⟩ := by
  apply sorted_lt_eq_of_mem_iff (slashable_attester_indices_ascending s _)
    (slashable_attester_indices_ascending s _)
  intro x
  rw [mem_slashable_attester_indices s ⟨a1, a2⟩ x, mem_slashable_attester_indices s ⟨a2, a1⟩ x]
  tauto

/-- Claim C9: doubling the number of set bits of the sync-committee
participation bitfield, holding the state fixed, exactly doubles the
sync-committee reward component. -/
theorem sync_committee_reward_scales_with_set_bits (s : BeaconState)
    (b b' : SignedBeaconBlock)
    (h : b'.message.body.sync_aggregate.num_set_bits =
      2 * b.message.body.sync_aggregate.num_set_bits) :
    get_sync_committee_rewards s b' = 2 * get_sync_committee_rewards s b := by
  simp only [get_sync_committee_rewards, h, Nat.mul_assoc]

/-- Witness for C9: a two-set-bit bitfield against a one-set-bit one. -/
theorem sync_committee_reward_scales_with_set_bits_witness :
    sampleSyncBlockTwo.message.body.sync_aggregate.num_set_bits =
        2 * sampleSyncBlockOne.message.body.sync_aggregate.num_set_bits ∧
      get_sync_committee_rewards sampleState sampleSyncBlockTwo =
        2 * get_sync_committee_rewards sampleState sampleSyncBlockOne :=
  ⟨by decide,
    sync_committee_reward_scales_with_set_bits sampleState sampleSyncBlockOne
      sampleSyncBlockTwo (by decide)⟩

/-- Claim C10: even on unsorted or duplicated attesting-index lists
(violating the `IndexedAttestation` invariant) with in-range indices,
the slashable-indices computation returns a strictly ascending,
duplicate-free sequence, equal to its result on the sorted,
deduplicated versions of the same lists. -/
theorem slashable_attester_indices_robust (s : BeaconState) (sl : AttesterSlashing)
    (l1 l2 : List Nat)
    (hbound : ∀ i ∈ sl.attestation_1.attesting_indices ++ sl.attestation_2.attesting_indices,
      i < s.validators.length)
    (h1s : l1.Sorted (· < ·))
    (h1m : ∀ x, x ∈ l1 ↔ x ∈ sl.attestation_1.attesting_indices)
    (h2s : l2.Sorted (· < ·))
    (h2m : ∀ x, x ∈ l2 ↔ x ∈ sl.attestation_2.attesting_indices) :
    (get_slashable_attester_indices s sl).Sorted (· < ·) ∧
      (get_slashable_attester_indices s sl).Nodup ∧
      get_slashable_attester_indices s sl = get_slashable_attester_indices s ⟨⟨l1⟩, ⟨l2⟩⟩ := by
  refine ⟨slashable_attester_indices_ascending s sl,
    (slashable_attester_indices_ascending s sl).nodup, ?_⟩
  apply sorted_lt_eq_of_mem_iff (slashable_attester_indices_ascending _ _)
    (slashable_attester_indices_ascending _ _)
  intro x
  rw [mem_slashable_attester_indices, mem_slashable_attester_indices]
  simp only [h1m, h2m]

/-- Witness for C10: the sample slashing's lists are unsorted and hold a
duplicate; `[0, 1, 2]` is the sorted deduplication of both. -/
theorem slashable_attester_indices_robust_witness :
    (∀ i ∈ sampleSlashing.attestation_1.attesting_indices ++
        sampleSlashing.attestation_2.attesting_indices,
      i < sampleState.validators.length) ∧
      ([0, 1, 2] : List Nat).Sorted (· < ·) ∧
      (∀ x, x ∈ ([0, 1, 2] : List Nat) ↔
        x ∈ sampleSlashing.attestation_1.attesting_indices) ∧
      (∀ x, x ∈ ([0, 1, 2] : List Nat) ↔
        x ∈ sampleSlashing.attestation_2.attesting_indices) ∧
      ((get_slashable_attester_indices sampleState sampleSlashing).Sorted (· < ·) ∧
        (get_slashable_attester_indices sampleState sampleSlashing).Nodup ∧
        get_slashable_attester_indices sampleState sampleSlashing =
          get_slashable_attester_indices sampleState ⟨⟨[0, 1, 2]⟩, ⟨[0, 1, 2]⟩⟩) :=
  ⟨by decide, by decide,
    fun x => by simp [sampleSlashing]; omega,
    fun x => by simp [sampleSlashing]; omega,
    slashable_attester_indices_robust sampleState sampleSlashing [0, 1, 2] [0, 1, 2]
      (by decide) (by decide) (fun x => by simp [sampleSlashing]; omega)
      (by decide) (fun x => by simp [sampleSlashing]; omega)⟩

/-- Claim C6: over an already-validated state and block within protocol
bounds (validated per-report indices, per-body counts within the
protocol maxima, effective balances and the abstract reward figures
within protocol bounds), every validator-registry lookup of the
proposer-slashing, attester-slashing and attestation accumulations is
in bounds, and each reward component's value fits in `u64`. -/
theorem reward_computation_in_bounds_no_overflow (s : BeaconState) (b : SignedBeaconBlock)
    (hval : ∀ v ∈ s.validators, v.effective_balance ≤ MAX_EFFECTIVE_BALANCE_ELECTRA)
    (hps_len : b.message.body.proposer_slashings.length ≤ MAX_PROPOSER_SLASHINGS)
    (hps_idx : ∀ ps ∈ b.message.body.proposer_slashings,
      ps.proposer_index < s.validators.length)
    (has_len : b.message.body.attester_slashings.length ≤ MAX_ATTESTER_SLASHINGS_ELECTRA)
    (has_idx : ∀ sl ∈ b.message.body.attester_slashings,
      sl.attestation_1.attesting_indices.length ≤ MAX_ATTESTING_INDICES ∧
        ∀ i ∈ sl.attestation_1.attesting_indices, i < s.validators.length)
    (hatt_len : b.message.body.attestations.length ≤ MAX_ATTESTATIONS_ELECTRA)
    (hatt_res : ∀ a ∈ b.message.body.attestations, ∀ idxs,
      s.get_attesting_indices a = .ok idxs →
        idxs.length ≤ MAX_ATTESTING_INDICES ∧ ∀ i ∈ idxs, i < s.validators.length)
    (hpr : ∀ i, s.get_proposer_reward i ≤ MAX_EFFECTIVE_BALANCE_ELECTRA)
    (htab : s.total_active_balance ≤ MAX_TOTAL_ACTIVE_BALANCE)
    (hbrpi : s.base_reward_per_increment ≤ EFFECTIVE_BALANCE_INCREMENT)
    (hbits : b.message.body.sync_aggregate.sync_committee_bits.length ≤ SYNC_COMMITTEE_SIZE) :
    (∀ ps ∈ b.message.body.proposer_slashings, ps.proposer_index < s.validators.length) ∧
      (∀ sl ∈ b.message.body.attester_slashings,
        ∀ i ∈ get_slashable_attester_indices s sl, i < s.validators.length) ∧
      (∀ a ∈ b.message.body.attestations, ∀ idxs, s.get_attesting_indices a = .ok idxs →
        ∀ i ∈ idxs, i < s.validators.length) ∧
      get_attestations_rewards s b < U64_CARD ∧
      get_sync_committee_rewards s b < U64_CARD ∧
      get_proposer_slashing_rewards s b < U64_CARD ∧
      get_attester_slashing_rewards s b < U64_CARD := by
  refine ⟨hps_idx, ?_, fun a ha idxs hres => ((hatt_res a ha idxs hres).2), ?_, ?_, ?_, ?_⟩
  · intro sl hsl i hi
    exact (has_idx sl hsl).2 i ((mem_slashable_attester_indices s sl i).mp hi).1
  · rw [attestations_rewards_eq_sum]
    have hsum : (b.message.body.attestations.map (attContribution s)).sum ≤
        b.message.body.attestations.length *
          (MAX_ATTESTING_INDICES * MAX_EFFECTIVE_BALANCE_ELECTRA) := by
      apply sum_map_le_length_mul
      intro a ha
      unfold attContribution
      cases hres : s.get_attesting_indices a with
      | ok idxs =>
          calc (idxs.map s.get_proposer_reward).sum ≤
                idxs.length * MAX_EFFECTIVE_BALANCE_ELECTRA :=
              sum_map_le_length_mul _ _ _ (fun i _ => hpr i)
            _ ≤ MAX_ATTESTING_INDICES * MAX_EFFECTIVE_BALANCE_ELECTRA :=
              Nat.mul_le_mul_right _ (hatt_res a ha idxs hres).1
      | error e => exact Nat.zero_le _
    refine lt_of_le_of_lt (le_trans hsum (Nat.mul_le_mul_right _ hatt_len)) ?_
    norm_num [MAX_ATTESTATIONS_ELECTRA, MAX_ATTESTING_INDICES, MAX_EFFECTIVE_BALANCE_ELECTRA,
      U64_CARD]
  · have m1 : s.total_active_balance / EFFECTIVE_BALANCE_INCREMENT ≤
        MAX_TOTAL_ACTIVE_BALANCE / EFFECTIVE_BALANCE_INCREMENT := Nat.div_le_div_right htab
    have m2 : s.base_reward_per_increment *
          (s.total_active_balance / EFFECTIVE_BALANCE_INCREMENT) ≤
        EFFECTIVE_BALANCE_INCREMENT * (MAX_TOTAL_ACTIVE_BALANCE / EFFECTIVE_BALANCE_INCREMENT) :=
      Nat.mul_le_mul hbrpi m1
    have m8 : s.base_reward_per_increment *
            (s.total_active_balance / EFFECTIVE_BALANCE_INCREMENT) *
          SYNC_REWARD_WEIGHT / WEIGHT_DENOMINATOR / SLOTS_PER_EPOCH / SYNC_COMMITTEE_SIZE *
          PROPOSER_WEIGHT / (WEIGHT_DENOMINATOR - PROPOSER_WEIGHT) ≤
        EFFECTIVE_BALANCE_INCREMENT *
            (MAX_TOTAL_ACTIVE_BALANCE / EFFECTIVE_BALANCE_INCREMENT) *
          SYNC_REWARD_WEIGHT / WEIGHT_DENOMINATOR / SLOTS_PER_EPOCH / SYNC_COMMITTEE_SIZE *
          PROPOSER_WEIGHT / (WEIGHT_DENOMINATOR - PROPOSER_WEIGHT) :=
      Nat.div_le_div_right (Nat.mul_le_mul_right _ (Nat.div_le_div_right
        (Nat.div_le_div_right (Nat.div_le_div_right (Nat.mul_le_mul_right _ m2)))))
    have hcount : b.message.body.sync_aggregate.num_set_bits ≤ SYNC_COMMITTEE_SIZE :=
      le_trans (List.countP_le_length _) hbits
    have hfinal : get_sync_committee_rewards s b ≤ SYNC_COMMITTEE_SIZE *
        (EFFECTIVE_BALANCE_INCREMENT *
            (MAX_TOTAL_ACTIVE_BALANCE / EFFECTIVE_BALANCE_INCREMENT) *
          SYNC_REWARD_WEIGHT / WEIGHT_DENOMINATOR / SLOTS_PER_EPOCH / SYNC_COMMITTEE_SIZE *
          PROPOSER_WEIGHT / (WEIGHT_DENOMINATOR - PROPOSER_WEIGHT)) := by
      simp only [get_sync_committee_rewards]
      exact Nat.mul_le_mul hcount m8
    refine lt_of_le_of_lt hfinal ?_
    norm_num [SYNC_COMMITTEE_SIZE, EFFECTIVE_BALANCE_INCREMENT, MAX_TOTAL_ACTIVE_BALANCE,
      SYNC_REWARD_WEIGHT, WEIGHT_DENOMINATOR, SLOTS_PER_EPOCH, PROPOSER_WEIGHT, U64_CARD]
  · rw [proposer_slashing_rewards_eq_sum]
    refine lt_of_le_of_lt (le_trans
      (sum_map_le_length_mul _ _ MAX_EFFECTIVE_BALANCE_ELECTRA
        (fun ps _ => effective_balance_getD_le s hval ps.proposer_index))
      (Nat.mul_le_mul_right _ hps_len)) ?_
    norm_num [MAX_PROPOSER_SLASHINGS, MAX_EFFECTIVE_BALANCE_ELECTRA, U64_CARD]
  · rw [attester_slashing_rewards_eq_sum]
    have hsum : (b.message.body.attester_slashings.map (slashingContribution s)).sum ≤
        b.message.body.attester_slashings.length *
          (MAX_ATTESTING_INDICES *
            (MAX_EFFECTIVE_BALANCE_ELECTRA / WHISTLEBLOWER_REWARD_QUOTIENT)) := by
      apply sum_map_le_length_mul
      intro sl hsl
      unfold slashingContribution
      calc ((get_slashable_attester_indices s sl).map
            (fun i => (s.validators.getD i defaultValidator).effective_balance /
              WHISTLEBLOWER_REWARD_QUOTIENT)).sum ≤
            (get_slashable_attester_indices s sl).length *
              (MAX_EFFECTIVE_BALANCE_ELECTRA / WHISTLEBLOWER_REWARD_QUOTIENT) :=
          sum_map_le_length_mul _ _ _
            (fun i _ => Nat.div_le_div_right (effective_balance_getD_le s hval i))
        _ ≤ MAX_ATTESTING_INDICES *
              (MAX_EFFECTIVE_BALANCE_ELECTRA / WHISTLEBLOWER_REWARD_QUOTIENT) :=
          Nat.mul_le_mul_right _
            (le_trans (slashable_attester_indices_length_le s sl) (has_idx sl hsl).1)
    refine lt_of_le_of_lt (le_trans hsum (Nat.mul_le_mul_right _ has_len)) ?_
    norm_num [MAX_ATTESTER_SLASHINGS_ELECTRA, MAX_ATTESTING_INDICES,
      MAX_EFFECTIVE_BALANCE_ELECTRA, WHISTLEBLOWER_REWARD_QUOTIENT, U64_CARD]

set_option maxRecDepth 4000 in
/-- Witness for C6: the bounded one-validator state and one-of-each
block satisfy all protocol-bound hypotheses, so every lookup is in
bounds and every component fits in `u64`. -/
theorem reward_computation_in_bounds_no_overflow_witness :
    (∀ v ∈ boundedState.validators, v.effective_balance ≤ MAX_EFFECTIVE_BALANCE_ELECTRA) ∧
      boundedBlock.message.body.proposer_slashings.length ≤ MAX_PROPOSER_SLASHINGS ∧
      (∀ ps ∈ boundedBlock.message.body.proposer_slashings,
        ps.proposer_index < boundedState.validators.length) ∧
      boundedBlock.message.body.attester_slashings.length ≤ MAX_ATTESTER_SLASHINGS_ELECTRA ∧
      (∀ sl ∈ boundedBlock.message.body.attester_slashings,
        sl.attestation_1.attesting_indices.length ≤ MAX_ATTESTING_INDICES ∧
          ∀ i ∈ sl.attestation_1.attesting_indices, i < boundedState.validators.length) ∧
      boundedBlock.message.body.attestations.length ≤ MAX_ATTESTATIONS_ELECTRA ∧
      (∀ a ∈ boundedBlock.message.body.attestations, ∀ idxs,
        boundedState.get_attesting_indices a = .ok idxs →
          idxs.length ≤ MAX_ATTESTING_INDICES ∧
            ∀ i ∈ idxs, i < boundedState.validators.length) ∧
      (∀ i, boundedState.get_proposer_reward i ≤ MAX_EFFECTIVE_BALANCE_ELECTRA) ∧
      boundedState.total_active_balance ≤ MAX_TOTAL_ACTIVE_BALANCE ∧
      boundedState.base_reward_per_increment ≤ EFFECTIVE_BALANCE_INCREMENT ∧
      boundedBlock.message.body.sync_aggregate.sync_committee_bits.length ≤
        SYNC_COMMITTEE_SIZE ∧
      ((∀ ps ∈ boundedBlock.message.body.proposer_slashings,
          ps.proposer_index < boundedState.validators.length) ∧
        (∀ sl ∈ boundedBlock.message.body.attester_slashings,
          ∀ i ∈ get_slashable_attester_indices boundedState sl,
            i < boundedState.validators.length) ∧
        (∀ a ∈ boundedBlock.message.body.attestations, ∀ idxs,
          boundedState.get_attesting_indices a = .ok idxs →
            ∀ i ∈ idxs, i < boundedState.validators.length) ∧
        get_attestations_rewards boundedState boundedBlock < U64_CARD ∧
        get_sync_committee_rewards boundedState boundedBlock < U64_CARD ∧
        get_proposer_slashing_rewards boundedState boundedBlock < U64_CARD ∧
        get_attester_slashing_rewards boundedState boundedBlock < U64_CARD) := by
  have hatt_res : ∀ a ∈ boundedBlock.message.body.attestations, ∀ idxs,
      boundedState.get_attesting_indices a = .ok idxs →
        idxs.length ≤ MAX_ATTESTING_INDICES ∧
          ∀ i ∈ idxs, i < boundedState.validators.length := by
    intro a ha idxs hres
    simp only [boundedState, Except.ok.injEq] at hres
    subst hres
    decide
  have hpr : ∀ i, boundedState.get_proposer_reward i ≤ MAX_EFFECTIVE_BALANCE_ELECTRA :=
    fun _ => by norm_num [boundedState, MAX_EFFECTIVE_BALANCE_ELECTRA]
  exact ⟨by decide, by decide, by decide, by decide, by decide, by decide, hatt_res, hpr,
    by decide, by decide, by decide,
    reward_computation_in_bounds_no_overflow boundedState boundedBlock
      (by decide) (by decide) (by decide) (by decide) (by decide) (by decide)
      hatt_res hpr (by decide) (by decide) (by decide)⟩

end Ream
